import Mathlib

set_option maxRecDepth 4000

/-!
Shallow embedding of the credential and session lifecycle engine of the
sanasham/role-based-access repository (backend/src/controllers/authController.js,
backend/src/models/user.js, utils/generateTokens.js, middlewares/auth.js and the
admin profile update of the user controller), together with theorems settling
the frozen claims about it.

Cryptographic primitives (bcrypt, sha256, jsonwebtoken) are modelled
symbolically: hashing is an injective tagging function, and a signed JWT is a
record whose `sig` field remembers the secret that signed it.  Times are Nat
milliseconds, matching the JavaScript Date.now() clock used throughout the
source.
-/

/-- Symbolic model of bcrypt.hash with cost 12 (models user.js pre-save hook):
an injective one-way tag of the plaintext. -/
def bcryptHash (p : String) : String := "$2b$12$" ++ p

/-- Symbolic model of bcrypt.compare: true exactly when the digest was produced
from the candidate plaintext (user.js comparePassword). -/
def bcryptCompare (candidate digest : String) : Bool := digest == bcryptHash candidate

/-- utils/generateTokens.js hashToken: sha256 hex digest, modelled as an
injective tag. -/
def hashToken (t : String) : String := "sha256:" ++ t

/-- Models of the JavaScript string operations the controllers use, written
over the character list so they evaluate by kernel reduction:
String.prototype.toLowerCase, trim, substring(0, n) and the character-search
used by the email validator. -/
def strToLower (s : String) : String := ⟨s.data.map Char.toLower⟩

def strTrim (s : String) : String :=
  ⟨((s.data.dropWhile Char.isWhitespace).reverse.dropWhile Char.isWhitespace).reverse⟩

def strTake (s : String) (n : Nat) : String := ⟨s.data.take n⟩

def strContainsChar (s : String) (c : Char) : Bool := s.data.contains c

/-- Process configuration: the two signing secrets, issuer/audience tags and
token TTLs (milliseconds) supplied via process.env in utils/generateTokens.js. -/
structure AuthConfig where
  accessSecret : String
  refreshSecret : String
  issuer : String
  audience : String
  accessTtlMs : Nat
  refreshTtlMs : Nat
deriving Repr, DecidableEq

/-- Symbolic signed JWT: the payload claims (`userId`, the refresh `type`
marker), the registered claims set at signing (`exp`, `iss`, `aud`) and `sig`,
the secret that produced the signature.  Two tokens are equal exactly when the
raw signed strings would be equal (jwt signing is deterministic). -/
structure Jwt where
  userId : Nat
  isRefresh : Bool
  exp : Nat
  iss : String
  aud : String
  sig : String
deriving Repr, DecidableEq

inductive JwtError
  /-- jsonwebtoken JsonWebTokenError: bad signature / malformed token. -/
  | invalid
  /-- jsonwebtoken TokenExpiredError. -/
  | expired
deriving Repr, DecidableEq

/-- Model of jwt.verify(token, secret) as called in middlewares/auth.js line 29
and authController.js line 211: no issuer or audience option is passed, so the
library checks only the signature and the expiry. -/
def jwtVerify (t : Jwt) (secret : String) (now : Nat) : Except JwtError Jwt :=
  if t.sig ≠ secret then .error .invalid
  else if t.exp ≤ now then .error .expired
  else .ok t

/-- utils/generateTokens.js generateAccessToken. -/
def generateAccessToken (cfg : AuthConfig) (userId : Nat) (now : Nat) : Jwt :=
  ⟨userId, false, now + cfg.accessTtlMs, cfg.issuer, cfg.audience, cfg.accessSecret⟩

/-- utils/generateTokens.js generateRefreshToken (payload carries type: refresh). -/
def generateRefreshToken (cfg : AuthConfig) (userId : Nat) (now : Nat) : Jwt :=
  ⟨userId, true, now + cfg.refreshTtlMs, cfg.issuer, cfg.audience, cfg.refreshSecret⟩

/-- utils/generateTokens.js generateTokens. -/
def generateTokens (cfg : AuthConfig) (userId : Nat) (now : Nat) : Jwt × Jwt :=
  (generateAccessToken cfg userId now, generateRefreshToken cfg userId now)

/-- One element of the refreshTokens array of the user schema (user.js lines
80-94): the raw refresh token value plus device metadata. -/
structure SessionRecord where
  token : Jwt
  createdAt : Nat
  userAgent : String
  ipAddress : String
deriving Repr, DecidableEq

/-- The user document of backend/src/models/user.js, restricted to the fields
the credential lifecycle reads or writes.  Times are Nat ms; optional schema
fields are Options. -/
structure User where
  id : Nat
  name : String
  email : String
  /-- stored bcrypt digest (the pre-save hook hashes any newly set plaintext) -/
  password : String
  role : String
  isActive : Bool
  isEmailVerified : Bool
  emailVerificationToken : Option String
  emailVerificationExpires : Option Nat
  passwordResetToken : Option String
  passwordResetExpires : Option Nat
  refreshTokens : List SessionRecord
  lastLogin : Option Nat
  loginAttempts : Nat
  lockUntil : Option Nat
  createdAt : Nat
deriving Repr, DecidableEq

/-- user.js virtual isLocked: !!(this.lockUntil && this.lockUntil > Date.now()). -/
def isLocked (u : User) (now : Nat) : Bool :=
  match u.lockUntil with
  | some t => decide (t > now)
  | none => false

/-- Schema validators of user.js translated literally.  The password regex
(?=.*[a-z])(?=.*[A-Z])(?=.*\d)(?=.*[@$!%*?&]) anchored at the start of the
character class [A-Za-z\d@$!%*?&]: each class must occur somewhere and the
first character must lie in the class. -/
def passwordSpecialChars : List Char := ['@', '$', '!', '%', '*', '?', '&']

def passwordClassChar (c : Char) : Bool :=
  c.isAlpha || c.isDigit || passwordSpecialChars.contains c

def passwordRegexOk (p : String) : Bool :=
  p.data.any Char.isLower && p.data.any Char.isUpper && p.data.any Char.isDigit &&
  p.data.any (fun c => passwordSpecialChars.contains c) &&
  (match p.data with
   | [] => false
   | c :: _ => passwordClassChar c)

/-- Password field validators: minlength 8 plus the strength regex. -/
def passwordSchemaOk (p : String) : Bool := p.length ≥ 8 && passwordRegexOk p

def nameCharOk (c : Char) : Bool := c.isAlpha || c = ' '

/-- Name field validators: required, 2..50 chars, letters and spaces only. -/
def nameSchemaOk (n : String) : Bool :=
  n.length ≥ 2 && n.length ≤ 50 && n.data.all nameCharOk

/-- Symbolic stand-in for the third-party validator.isEmail library call. -/
def emailSchemaOk (e : String) : Bool := strContainsChar e '@'

/-- The role enum of the schema (user.js lines 48-55). -/
def roleValues : List String := ["user", "admin", "moderator"]

def roleSchemaOk (r : String) : Bool := roleValues.contains r

/-- user.js addRefreshToken: if the array already holds >= 5 records, shift off
the oldest (index 0; records are appended newest last), then push the new
record with the user agent truncated to 200 chars. -/
def addRefreshToken (u : User) (t : Jwt) (userAgent ipAddress : String) (now : Nat) : User :=
  let ts := if u.refreshTokens.length ≥ 5 then u.refreshTokens.tail else u.refreshTokens
  { u with refreshTokens := ts ++ [⟨t, now, strTake userAgent 200, ipAddress⟩] }

/-- user.js removeRefreshToken: filter out records whose token equals the
presented raw value. -/
def removeRefreshToken (u : User) (t : Jwt) : User :=
  { u with refreshTokens := u.refreshTokens.filter (fun r => r.token ≠ t) }

/-- user.js removeAllRefreshTokens. -/
def removeAllRefreshTokens (u : User) : User :=
  { u with refreshTokens := [] }

/-- user.js incLoginAttempts, unlocked-or-unexpired branch: $inc the counter,
and set lockUntil = now + 2h when the incremented counter reaches the max (5)
and the account is not currently locked. -/
def incLoginAttemptsCore (u : User) (now : Nat) : User :=
  let u' := { u with loginAttempts := u.loginAttempts + 1 }
  if u.loginAttempts + 1 ≥ 5 && !(isLocked u now) then
    { u' with lockUntil := some (now + 2 * 60 * 60 * 1000) }
  else u'

/-- user.js incLoginAttempts: a previous lock that has strictly expired
($lt Date.now()) restarts the counter at 1 and unsets the lock; otherwise the
increment path runs. -/
def incLoginAttempts (u : User) (now : Nat) : User :=
  match u.lockUntil with
  | some t =>
      if t < now then { u with loginAttempts := 1, lockUntil := none }
      else incLoginAttemptsCore u now
  | none => incLoginAttemptsCore u now

/-- user.js resetLoginAttempts: $unset of loginAttempts (reads back as the
default 0) and lockUntil. -/
def resetLoginAttempts (u : User) : User :=
  { u with loginAttempts := 0, lockUntil := none }

/-- Typed error surfaced by a controller operation: ApiError(statusCode, message). -/
structure ApiErr where
  statusCode : Nat
  message : String
deriving Repr, DecidableEq

/-- Modelled from the spec: the repository file utils/ApiResponse.js is not
under src/ (only its callers are).  Per the response conventions of the spec a success
response carries a status code, a data payload (null for the password flows)
and a human-readable message; success is status < 400. -/
structure ApiResp (α : Type) where
  statusCode : Nat
  data : Option α
  message : String
deriving Repr, DecidableEq

def ApiResp.success {α : Type} (r : ApiResp α) : Bool := r.statusCode < 400

/-- The user summary serialized by registerUser (authController.js lines 88-95):
exactly these six fields, never the password digest, the session array or any
stored token hash. -/
structure UserSummary where
  id : Nat
  name : String
  email : String
  role : String
  isEmailVerified : Bool
  createdAt : Nat
deriving Repr, DecidableEq

/-- The keys of the object literal serialized by registerUser. -/
def registerSummaryKeys : List String :=
  ["id", "name", "email", "role", "isEmailVerified", "createdAt"]

def summarize (u : User) : UserSummary :=
  ⟨u.id, u.name, u.email, u.role, u.isEmailVerified, u.createdAt⟩

/-- The JavaScript role-or-default expression of authController.js line 54:
undefined, null and the empty string are falsy and fall back to the user role. -/
def jsRoleDefault (r : Option String) : String :=
  match r with
  | none => "user"
  | some s => if s = "" then "user" else s

/-- Request body of POST /register: role is optional and passed through. -/
structure RegisterReq where
  name : String
  email : String
  password : String
  role : Option String
deriving Repr, DecidableEq

/-- User.create of authController.js lines 50-55 plus the schema validation and
defaults of user.js and the password-hashing pre-save hook: a fresh document
with isActive true, isEmailVerified false, empty session list and zeroed
lockout state. -/
def createUser (newId : Nat) (name email password role : String) (now : Nat) :
    Except ApiErr User :=
  if ¬(nameSchemaOk name && emailSchemaOk email && passwordSchemaOk password
        && roleSchemaOk role) then
    .error ⟨400, "Validation failed"⟩
  else
    .ok { id := newId, name := name, email := email,
          password := bcryptHash password, role := role,
          isActive := true, isEmailVerified := false,
          emailVerificationToken := none, emailVerificationExpires := none,
          passwordResetToken := none, passwordResetExpires := none,
          refreshTokens := [], lastLogin := none,
          loginAttempts := 0, lockUntil := none, createdAt := now }

/-- authController.js registerUser (lines 39-110).  `emailTaken` is the result
of the duplicate findOne; `rawVerificationToken` is the random token the
handler generates.  The flow creates the account, stores the hashed
verification token with a 24h expiry, attempts email delivery (failure is
logged and ignored) and responds 201 with the six-field summary.  No access or
refresh token is generated and no session is recorded on this path. -/
def registerUser (emailTaken : Bool) (newId : Nat) (req : RegisterReq)
    (rawVerificationToken : String) (now : Nat) :
    Except ApiErr (User × ApiResp UserSummary) :=
  if emailTaken then .error ⟨409, "User with this email already exists"⟩
  else
    match createUser newId (strTrim req.name) (strTrim (strToLower req.email)) req.password
        (jsRoleDefault req.role) now with
    | .error e => .error e
    | .ok u =>
        let u := { u with
          emailVerificationToken := some (hashToken rawVerificationToken),
          emailVerificationExpires := some (now + 24 * 60 * 60 * 1000) }
        .ok (u, ⟨201, some (summarize u),
          "User registered successfully. Please check your email to verify your account."⟩)

/-- authController.js loginUser (lines 113-200), acting on the findOne result
for the submitted email.  Returns the post-state of the account (when found)
and either the issued token pair or the typed error.  The lock check runs
strictly before the active check and the password comparison; a failed
comparison runs incLoginAttempts; success resets a nonzero counter, stamps
lastLogin and records a session for the new refresh token. -/
def loginUser (found : Option User) (password : String) (cfg : AuthConfig)
    (now : Nat) (userAgent ipAddress : String) :
    Option User × Except ApiErr (Jwt × Jwt) :=
  match found with
  | none => (none, .error ⟨401, "Invalid email or password"⟩)
  | some u =>
    if isLocked u now then
      (some u, .error ⟨423,
        "Account is temporarily locked due to too many failed login attempts. Please try again later."⟩)
    else if ¬ u.isActive then
      (some u, .error ⟨403, "Account has been deactivated. Please contact support."⟩)
    else if ¬ bcryptCompare password u.password then
      (some (incLoginAttempts u now), .error ⟨401, "Invalid email or password"⟩)
    else
      let u1 := if u.loginAttempts > 0 then resetLoginAttempts u else u
      let u2 := { u1 with lastLogin := some now }
      let pair := generateTokens cfg u.id now
      (some (addRefreshToken u2 pair.2 userAgent ipAddress now), .ok pair)

/-- The names bound at module scope by the import block of
backend/src/controllers/authController.js (lines 1-18).  Note: jwt is not among
them, although line 211 evaluates jwt.verify. -/
def authControllerImportedNames : List String :=
  ["rateLimit", "User", "ApiError", "ApiResponse", "asyncHandler",
   "sendPasswordResetEmail", "sendVerificationEmail", "sendWelcomeEmail",
   "generateRandomToken", "generateTokens", "hashToken", "getClientIP",
   "logger", "clearTokenCookies", "setTokenCookies"]

/-- The body of the try block of authController.js refreshToken (lines 211-247)
as written, i.e. assuming the identifier jwt resolves: verify the presented
refresh token (both verification failures map to the single 403
invalid-or-expired error), look the account up by the userId claim, reject a
token absent from the session list and an inactive account, then rotate:
remove the old session record, mint a new pair, append a session for the new
refresh token.  Returns the account post-state with the new pair. -/
def refreshRotate (db : Nat → Option User) (t : Jwt) (cfg : AuthConfig)
    (now : Nat) (userAgent ipAddress : String) :
    Except ApiErr (User × Jwt × Jwt) :=
  match jwtVerify t cfg.refreshSecret now with
  | .error _ => .error ⟨403, "Invalid or expired refresh token"⟩
  | .ok d =>
    match db d.userId with
    | none => .error ⟨403, "Invalid refresh token"⟩
    | some u =>
      if ¬ (u.refreshTokens.any (fun r => r.token = t)) then
        .error ⟨403, "Invalid refresh token"⟩
      else if ¬ u.isActive then
        .error ⟨403, "Account has been deactivated"⟩
      else
        let pair := generateTokens cfg u.id now
        let u1 := removeRefreshToken u t
        (.ok (addRefreshToken u1 pair.2 userAgent ipAddress now, pair))

/-- authController.js refreshToken (lines 203-257) as the module actually
executes: the missing-token guard runs first (401), and then the first
statement of the try block evaluates jwt.verify although jwt is never imported
in this module, raising ReferenceError.  The catch clause rethrows anything
that is not a JsonWebTokenError/TokenExpiredError, and the global errorHandler
(middlewares/errorHandler.js) maps an untyped error to ApiError(500, Internal
server error). -/
def refreshTokenHandler (db : Nat → Option User) (tok : Option Jwt)
    (cfg : AuthConfig) (now : Nat) (userAgent ipAddress : String) :
    Except ApiErr (User × Jwt × Jwt) :=
  match tok with
  | none => .error ⟨401, "Refresh token is required"⟩
  | some t =>
    if authControllerImportedNames.contains "jwt" then
      refreshRotate db t cfg now userAgent ipAddress
    else
      .error ⟨500, "Internal server error"⟩

/-- authController.js changePassword (lines 297-331), acting on the
authenticated account: verify the current password against the stored digest
(400 on mismatch); on success store the re-hashed new password (the save
validates the newly set plaintext, then the pre-save hook hashes it) and clear
the whole session list. -/
def changePassword (u : User) (currentPassword newPassword : String) :
    User × Except ApiErr Unit :=
  if ¬ bcryptCompare currentPassword u.password then
    (u, .error ⟨400, "Current password is incorrect"⟩)
  else if ¬ passwordSchemaOk newPassword then
    (u, .error ⟨400, "Validation failed"⟩)
  else
    (removeAllRefreshTokens { u with password := bcryptHash newPassword }, .ok ())

/-- authController.js forgotPassword (lines 334-387), acting on the findOne
result for the submitted email.  Unknown email: respond 200 with null data and
the if-an-account-exists message, storing nothing.  Known email: store the
hashed reset token with a 1h expiry, then attempt delivery; on delivery
failure roll both fields back and fail 500; on success respond 200 with null
data and the reset-email-sent message. -/
def forgotPassword (found : Option User) (rawResetToken : String) (now : Nat)
    (emailDeliveryOk : Bool) : Option User × Except ApiErr (ApiResp Unit) :=
  match found with
  | none =>
    (none, .ok ⟨200, none,
      "If an account with that email exists, we have sent a password reset link."⟩)
  | some u =>
    let u1 := { u with passwordResetToken := some (hashToken rawResetToken),
                       passwordResetExpires := some (now + 60 * 60 * 1000) }
    if emailDeliveryOk then
      (some u1, .ok ⟨200, none, "Password reset email sent successfully."⟩)
    else
      (some { u1 with passwordResetToken := none, passwordResetExpires := none },
       .error ⟨500, "Failed to send password reset email. Please try again."⟩)

/-- The match condition of the findOne in authController.js resetPassword
(lines 396-399): stored reset-token hash equals the hash of the presented raw
token, and the stored expiry is strictly in the future ($gt Date.now()). -/
def resetTokenMatches (u : User) (rawToken : String) (now : Nat) : Bool :=
  u.passwordResetToken == some (hashToken rawToken) &&
  (match u.passwordResetExpires with
   | some e => decide (e > now)
   | none => false)

/-- authController.js resetPassword (lines 390-425) restricted to one account:
when the presented token matches, store the re-hashed new password, clear both
reset-token fields in the same save, then clear every session; otherwise fail
400 leaving the account untouched. -/
def resetPassword (u : User) (rawToken newPassword : String) (now : Nat) :
    User × Except ApiErr Unit :=
  if ¬ resetTokenMatches u rawToken now then
    (u, .error ⟨400, "Invalid or expired password reset token"⟩)
  else if ¬ passwordSchemaOk newPassword then
    (u, .error ⟨400, "Validation failed"⟩)
  else
    (removeAllRefreshTokens
      { u with password := bcryptHash newPassword,
               passwordResetToken := none, passwordResetExpires := none },
     .ok ())

/-- middlewares/auth.js authenticate (lines 7-64): take the access token from
cookie or header, verify it with the access secret (jwt.verify with no issuer
or audience option), classify a failed verification into 401 Invalid token
versus 401 Token has expired, look the account up, reject a missing account
(401), an inactive account (403) and a locked account (423), else accept. -/
def authenticate (db : Nat → Option User) (tok : Option Jwt) (cfg : AuthConfig)
    (now : Nat) : Except ApiErr User :=
  match tok with
  | none => .error ⟨401, "Access denied. No token provided."⟩
  | some t =>
    match jwtVerify t cfg.accessSecret now with
    | .error .invalid => .error ⟨401, "Invalid token"⟩
    | .error .expired => .error ⟨401, "Token has expired"⟩
    | .ok d =>
      match db d.userId with
      | none => .error ⟨401, "Token is valid but user not found"⟩
      | some u =>
        if ¬ u.isActive then .error ⟨403, "Account has been deactivated"⟩
        else if isLocked u now then .error ⟨423, "Account is temporarily locked"⟩
        else .ok u

/-- The two pre-save hooks of user.js (lines 147-169), applied relative to the
stored version of the document (none for a new document): a modified password
is re-hashed, and a modified email on a non-new document resets
isEmailVerified to false. -/
def applyPreSaveHooks (stored : Option User) (u : User) : User :=
  let hashed :=
    match stored with
    | none => { u with password := bcryptHash u.password }
    | some p =>
      if u.password ≠ p.password then { u with password := bcryptHash u.password } else u
  match stored with
  | none => hashed
  | some p => if u.email ≠ p.email then { hashed with isEmailVerified := false } else hashed

/-- Request body of the admin PUT profile update (userController.js
updateUserProfile): every field optional. -/
structure AdminUpdateReq where
  name : Option String
  email : Option String
  role : Option String
  isActive : Option Bool
  isEmailVerified : Option Bool
deriving Repr, DecidableEq

/-- The updateData object the admin update builds (userController.js lines
398-415), in source order: a truthy name is trimmed in; a truthy email that
differs from the stored one is lowercased in together with
isEmailVerified := false; a truthy role is copied in; explicit isActive and
isEmailVerified fields are copied in last, so an explicit isEmailVerified
overwrites the false written by the email branch. -/
structure UpdateData where
  name : Option String := none
  email : Option String := none
  role : Option String := none
  isActive : Option Bool := none
  isEmailVerified : Option Bool := none
deriving Repr, DecidableEq

def buildAdminUpdateData (u : User) (req : AdminUpdateReq) : UpdateData :=
  let d : UpdateData := {}
  let d := match req.name with
    | some n => if n ≠ "" then { d with name := some (strTrim n) } else d
    | none => d
  let d := match req.email with
    | some e =>
      if e ≠ "" && e ≠ u.email then
        { d with email := some (strToLower e), isEmailVerified := some false }
      else d
    | none => d
  let d := match req.role with
    | some r => if r ≠ "" then { d with role := some r } else d
    | none => d
  let d := match req.isActive with
    | some b => { d with isActive := some b }
    | none => d
  match req.isEmailVerified with
  | some b => { d with isEmailVerified := some b }
  | none => d

/-- runValidators of the findByIdAndUpdate call: the updated paths are
re-validated against the schema. -/
def updateDataValid (d : UpdateData) : Bool :=
  (match d.name with | some n => nameSchemaOk n | none => true) &&
  (match d.email with | some e => emailSchemaOk e | none => true) &&
  (match d.role with | some r => roleSchemaOk r | none => true)

def applyUpdateData (u : User) (d : UpdateData) : User :=
  let u := match d.name with | some n => { u with name := n } | none => u
  let u := match d.email with | some e => { u with email := e } | none => u
  let u := match d.role with | some r => { u with role := r } | none => u
  let u := match d.isActive with | some b => { u with isActive := b } | none => u
  match d.isEmailVerified with
  | some b => { u with isEmailVerified := b }
  | none => u

/-- userController.js updateUserProfile (lines 383-437).  `isSelf` is whether
the target id equals the id of the authenticated admin; `emailTakenElsewhere` is the
duplicate findOne for the new email.  findByIdAndUpdate bypasses the pre-save
hooks, so only the built updateData touches the document. -/
def updateUserProfile (u : User) (req : AdminUpdateReq) (isSelf : Bool)
    (emailTakenElsewhere : Bool) : Except ApiErr User :=
  if isSelf && (req.role ≠ some u.role || req.isActive == some false) then
    .error ⟨400, "You cannot modify your own role or active status"⟩
  else if (match req.email with
           | some e => e ≠ "" && e ≠ u.email && emailTakenElsewhere
           | none => false) then
    .error ⟨409, "Email already exists"⟩
  else
    if ¬ updateDataValid (buildAdminUpdateData u req) then .error ⟨400, "Validation failed"⟩
    else .ok (applyUpdateData u (buildAdminUpdateData u req))

/-- A login attempt in a trace: the submitted password and the Date.now()
value at which the request is handled. -/
def loginStep (cfg : AuthConfig) (userAgent ipAddress : String) (u : User)
    (e : String × Nat) : User :=
  ((loginUser (some u) e.1 cfg e.2 userAgent ipAddress).1).getD u

/-- Fold a list of login attempts over one account. -/
def runLogin (cfg : AuthConfig) (userAgent ipAddress : String) (u : User)
    (events : List (String × Nat)) : User :=
  events.foldl (loginStep cfg userAgent ipAddress) u

/-- Concrete fixtures used by witnesses and counterexamples. -/
def cfg0 : AuthConfig :=
  ⟨"access-secret", "refresh-secret", "your-app-name", "your-app-users",
   15 * 60 * 1000, 7 * 24 * 60 * 60 * 1000⟩

def user0 : User :=
  { id := 1, name := "Alice", email := "a@x.com",
    password := bcryptHash "Str0ng!Pw", role := "user",
    isActive := true, isEmailVerified := false,
    emailVerificationToken := none, emailVerificationExpires := none,
    passwordResetToken := none, passwordResetExpires := none,
    refreshTokens := [], lastLogin := none,
    loginAttempts := 0, lockUntil := none, createdAt := 0 }

def mkSession (i : Nat) : SessionRecord :=
  ⟨⟨i, true, 1000 + i, "your-app-name", "your-app-users", "refresh-secret"⟩, i, "", ""⟩

/-- An account already holding the cap of 5 session records. -/
def user5 : User :=
  { user0 with refreshTokens := [mkSession 0, mkSession 1, mkSession 2, mkSession 3, mkSession 4] }

def tok0 : Jwt := generateRefreshToken cfg0 1 0

/-- An account with one live session for tok0. -/
def sessUser0 : User := { user0 with refreshTokens := [⟨tok0, 0, "", ""⟩] }

/-- An account with an outstanding password-reset token (raw value rawtok). -/
def resetUser0 : User :=
  { user0 with passwordResetToken := some (hashToken "rawtok"),
               passwordResetExpires := some 1000 }

/-- Five wrong-password attempts at t = 0 followed by a sixth at the exact
instant the resulting lock expires (t = 7200000). -/
def lockTrace : List (String × Nat) :=
  [("wrong", 0), ("wrong", 0), ("wrong", 0), ("wrong", 0), ("wrong", 0),
   ("wrong", 7200000)]

/-- A currently locked account (counter at 5, lock until t = 7200000). -/
def lockedUser0 : User := { user0 with loginAttempts := 5, lockUntil := some 7200000 }

/-- An unlocked account whose next failed attempt is its fifth. -/
def fourFailUser0 : User := { user0 with loginAttempts := 4 }

def registerReq0 : RegisterReq := ⟨"Alice", "a@x.com", "Str0ng!Pw", none⟩

def adminRegisterReq0 : RegisterReq := ⟨"Mallory", "m@x.com", "Str0ng!Pw", some "admin"⟩

/-- The account state registerUser produces for registerReq0 (fresh id 1,
verification raw token vt, clock 0). -/
def regUser0 : User :=
  { id := 1, name := "Alice", email := "a@x.com",
    password := bcryptHash "Str0ng!Pw", role := "user",
    isActive := true, isEmailVerified := false,
    emailVerificationToken := some (hashToken "vt"),
    emailVerificationExpires := some 86400000,
    passwordResetToken := none, passwordResetExpires := none,
    refreshTokens := [], lastLogin := none,
    loginAttempts := 0, lockUntil := none, createdAt := 0 }

def regResp0 : ApiResp UserSummary :=
  ⟨201, some (summarize regUser0),
   "User registered successfully. Please check your email to verify your account."⟩

/-- The account state registerUser produces for adminRegisterReq0. -/
def regAdmin0 : User :=
  { regUser0 with id := 2, name := "Mallory", email := "m@x.com", role := "admin" }

/-- A token with a valid signature and expiry but a foreign issuer and audience. -/
def evilToken : Jwt := ⟨1, false, 1000, "evil-issuer", "evil-audience", "access-secret"⟩

/-- A token signed with the right secret but already expired at t = 10. -/
def expiredToken : Jwt := ⟨1, false, 5, "your-app-name", "your-app-users", "access-secret"⟩

/-- A token signed with the wrong secret. -/
def badSigToken : Jwt := ⟨1, false, 1000, "your-app-name", "your-app-users", "forged"⟩

def db0 : Nat → Option User := fun i => if i = 1 then some user0 else none

def verifiedUser0 : User := { user0 with isEmailVerified := true }

/-- Admin update that changes the email and explicitly supplies
isEmailVerified = true in the same request. -/
def overrideReq0 : AdminUpdateReq := ⟨none, some "b@x.com", none, none, some true⟩

/-- Admin update that changes the email without an explicit isEmailVerified. -/
def plainEmailReq0 : AdminUpdateReq := ⟨none, some "b@x.com", none, none, none⟩

/-- Shared helper: the isEmailVerified override in applyUpdateData. -/
theorem applyUpdateData_isEmailVerified_override (u : User) (d : UpdateData) (b : Bool)
    (h : d.isEmailVerified = some b) : (applyUpdateData u d).isEmailVerified = b := by
  unfold applyUpdateData
  rw [h]

/-- C1 (code bug): authController.js refreshToken evaluates jwt.verify although
the module never imports jwt, so every request that does present a refresh
token raises ReferenceError, which the catch clause rethrows and the global
errorHandler surfaces as 500 Internal server error; the rotation the claim
describes never runs. -/
theorem refresh_handler_always_internal_error (db : Nat → Option User) (t : Jwt)
    (cfg : AuthConfig) (now : Nat) (userAgent ipAddress : String) :
    refreshTokenHandler db (some t) cfg now userAgent ipAddress
      = .error ⟨500, "Internal server error"⟩ := rfl

/-- C9: the per-account session list is bounded by 5 across all session
operations: an add on a list at the cap drops the head (the oldest record;
records are appended newest last) before appending, an add below the cap just
appends, and the remove operations only shrink the list. -/
theorem session_cap_preserved (u : User) (t : Jwt) (userAgent ipAddress : String) (now : Nat) :
    (u.refreshTokens.length ≤ 5 →
      (addRefreshToken u t userAgent ipAddress now).refreshTokens.length ≤ 5) ∧
    (u.refreshTokens.length = 5 →
      (addRefreshToken u t userAgent ipAddress now).refreshTokens
        = u.refreshTokens.tail ++ [⟨t, now, strTake userAgent 200, ipAddress⟩]) ∧
    (u.refreshTokens.length < 5 →
      (addRefreshToken u t userAgent ipAddress now).refreshTokens
        = u.refreshTokens ++ [⟨t, now, strTake userAgent 200, ipAddress⟩]) ∧
    (removeRefreshToken u t).refreshTokens.length ≤ u.refreshTokens.length ∧
    (removeAllRefreshTokens u).refreshTokens.length = 0 := by
  refine ⟨?_, ?_, ?_, ?_, rfl⟩
  · intro h
    by_cases hc : u.refreshTokens.length ≥ 5 <;>
      simp [addRefreshToken, hc, List.length_tail] <;> omega
  · intro h
    simp [addRefreshToken, h]
  · intro h
    have hc : ¬ u.refreshTokens.length ≥ 5 := by omega
    simp [addRefreshToken, hc]
  · simpa [removeRefreshToken] using
      List.length_filter_le (fun r => r.token ≠ t) u.refreshTokens

/-- Witness for session_cap_preserved at an account holding exactly 5 records. -/
theorem session_cap_preserved_witness :
    (addRefreshToken user5 tok0 "ua" "ip" 9).refreshTokens.length ≤ 5 ∧
    (addRefreshToken user5 tok0 "ua" "ip" 9).refreshTokens
      = user5.refreshTokens.tail ++ [⟨tok0, 9, "ua", "ip"⟩] := by
  have h := session_cap_preserved user5 tok0 "ua" "ip" 9
  exact ⟨h.1 (by decide), h.2.1 (by decide)⟩

/-- C2 counterexample: a reachable trace on a fresh account — five wrong
passwords at t = 0 lock the account until t = 7200000; a sixth wrong password
at exactly t = 7200000 finds the account no longer locked (lockUntil > now is
strict), is not treated as an expired lock either (lockUntil < now is also
strict), and so increments the counter to 6 and enters the Locked state again
with a fresh 2-hour lock.  Locked is therefore entered on a transition whose
counter reaches 6, not 5. -/
theorem lockout_boundary_counterexample :
    isLocked (runLogin cfg0 "" "" user0 (lockTrace.take 5)) 7200000 = false ∧
    (runLogin cfg0 "" "" user0 lockTrace).loginAttempts = 6 ∧
    (runLogin cfg0 "" "" user0 lockTrace).lockUntil = some 14400000 ∧
    isLocked (runLogin cfg0 "" "" user0 lockTrace) 7200001 = true := by
  decide

/-- C2 amended: a login while Locked (lock-until strictly in the future) is
rejected with the distinct 423 error, leaving the account unchanged — the
password is neither checked nor counted, even if correct.  A failed attempt in
an unlocked active state runs incLoginAttempts and returns the generic 401.
incLoginAttempts restarts the counter at 1 and clears the lock when the
previous lock has strictly expired; otherwise it increments the counter, and
sets lock-until = now + 2 hours exactly when the incremented counter is at
least 5 and the account is not currently locked — from a fresh account this
first happens when the counter reaches exactly 5, but a failed attempt at the
precise expiry instant pushes the counter past 5 and re-locks. -/
theorem lockout_amended (u : User) (pw : String) (cfg : AuthConfig) (now : Nat)
    (userAgent ipAddress : String) :
    (isLocked u now = true →
      loginUser (some u) pw cfg now userAgent ipAddress
        = (some u, .error ⟨423,
            "Account is temporarily locked due to too many failed login attempts. Please try again later."⟩)) ∧
    (isLocked u now = false → u.isActive = true → bcryptCompare pw u.password = false →
      loginUser (some u) pw cfg now userAgent ipAddress
        = (some (incLoginAttempts u now), .error ⟨401, "Invalid email or password"⟩)) ∧
    (∀ t, u.lockUntil = some t → t < now →
      incLoginAttempts u now = { u with loginAttempts := 1, lockUntil := none }) ∧
    (isLocked u now = false → (∀ t, u.lockUntil = some t → now ≤ t) →
      u.loginAttempts + 1 ≥ 5 →
      incLoginAttempts u now
        = { u with loginAttempts := u.loginAttempts + 1,
                   lockUntil := some (now + 2 * 60 * 60 * 1000) }) ∧
    (u.loginAttempts + 1 < 5 → (∀ t, u.lockUntil = some t → now ≤ t) →
      incLoginAttempts u now = { u with loginAttempts := u.loginAttempts + 1 }) := by
  refine ⟨?_, ?_, ?_, ?_, ?_⟩
  · intro hl
    simp [loginUser, hl]
  · intro hl ha hp
    simp [loginUser, hl, ha, hp]
  · intro t ht hlt
    simp [incLoginAttempts, ht, hlt]
  · intro hl hexp hge
    have hstep : incLoginAttemptsCore u now
        = { u with loginAttempts := u.loginAttempts + 1,
                   lockUntil := some (now + 2 * 60 * 60 * 1000) } := by
      unfold incLoginAttemptsCore
      split
      · rfl
      · rename_i hcontra
        exfalso
        simp [hl, hge] at hcontra
    cases hu : u.lockUntil with
    | none =>
        simp only [incLoginAttempts, hu]
        exact hstep
    | some t =>
        have hnlt : ¬ t < now := by
          have := hexp t hu
          omega
        simp only [incLoginAttempts, hu, if_neg hnlt]
        exact hstep
  · intro hlt hexp
    have hstep : incLoginAttemptsCore u now
        = { u with loginAttempts := u.loginAttempts + 1 } := by
      unfold incLoginAttemptsCore
      split
      · rename_i hcontra
        exfalso
        simp at hcontra
        omega
      · rfl
    cases hu : u.lockUntil with
    | none =>
        simp only [incLoginAttempts, hu]
        rw [hstep, hu]
    | some t =>
        have hnlt : ¬ t < now := by
          have := hexp t hu
          omega
        simp only [incLoginAttempts, hu, if_neg hnlt]
        rw [hstep, hu]

/-- Witness for lockout_amended: the locked account rejects even the correct
password with 423 and is left unchanged, and an unlocked account on its fifth
failure is locked until now + 2h. -/
theorem lockout_amended_witness :
    loginUser (some lockedUser0) "Str0ng!Pw" cfg0 100 "" ""
      = (some lockedUser0, .error ⟨423,
          "Account is temporarily locked due to too many failed login attempts. Please try again later."⟩) ∧
    incLoginAttempts fourFailUser0 10
      = { fourFailUser0 with loginAttempts := 5, lockUntil := some 7200010 } := by
  constructor
  · exact (lockout_amended lockedUser0 "Str0ng!Pw" cfg0 100 "" "").1 (by decide)
  · exact (lockout_amended fourFailUser0 "x" cfg0 10 "" "").2.2.2.1 (by decide)
      (by intro t h; exact Option.noConfusion h) (by decide)

/-- C4: for a schema-valid new password (request validation runs before the
controller), reset-password succeeds exactly when the hash of the presented
raw token equals the stored reset-token hash and the stored expiry is strictly
in the future; success stores the re-hashed password and clears both
reset-token fields in the same state change (and clears the sessions), failure
leaves the account untouched, and a second reset presenting the same raw token
against the post-state always fails. -/
theorem reset_password_single_use (u : User) (raw newPw : String) (now : Nat)
    (hval : passwordSchemaOk newPw = true) :
    ((resetPassword u raw newPw now).2 = .ok () ↔ resetTokenMatches u raw now = true) ∧
    ((resetPassword u raw newPw now).2 = .ok () →
      (resetPassword u raw newPw now).1.passwordResetToken = none ∧
      (resetPassword u raw newPw now).1.passwordResetExpires = none ∧
      (resetPassword u raw newPw now).1.password = bcryptHash newPw ∧
      (resetPassword u raw newPw now).1.refreshTokens = [] ∧
      ∀ now2 newPw2,
        (resetPassword (resetPassword u raw newPw now).1 raw newPw2 now2).2
          = .error ⟨400, "Invalid or expired password reset token"⟩) ∧
    ((resetPassword u raw newPw now).2 ≠ .ok () → (resetPassword u raw newPw now).1 = u) := by
  by_cases hm : resetTokenMatches u raw now = true
  · have hpost : resetPassword u raw newPw now
        = (removeAllRefreshTokens
            { u with password := bcryptHash newPw,
                     passwordResetToken := none, passwordResetExpires := none },
           .ok ()) := by
      unfold resetPassword
      rw [if_neg (by simp [hm]), if_neg (by simp [hval])]
    refine ⟨by simp [hpost, hm], ?_, ?_⟩
    · intro _
      refine ⟨by simp [hpost, removeAllRefreshTokens],
              by simp [hpost, removeAllRefreshTokens],
              by simp [hpost, removeAllRefreshTokens],
              by simp [hpost, removeAllRefreshTokens], ?_⟩
      intro now2 newPw2
      rw [hpost]
      unfold resetPassword
      rw [if_pos (by simp [resetTokenMatches, removeAllRefreshTokens])]
    · intro hne
      exfalso
      exact hne (by simp [hpost])
  · have hm' : resetTokenMatches u raw now = false := by
      cases h : resetTokenMatches u raw now
      · rfl
      · exact absurd h hm
    have hpost : resetPassword u raw newPw now
        = (u, .error ⟨400, "Invalid or expired password reset token"⟩) := by
      unfold resetPassword
      rw [if_pos (by simp [hm'])]
    refine ⟨by simp [hpost, hm'], by simp [hpost], ?_⟩
    intro _
    simp [hpost]

/-- Witness for reset_password_single_use at an account holding a live reset
token for raw value rawtok. -/
theorem reset_password_single_use_witness :
    ((resetPassword resetUser0 "rawtok" "N3w!Pass" 0).2 = .ok ()
      ↔ resetTokenMatches resetUser0 "rawtok" 0 = true) ∧
    ((resetPassword resetUser0 "rawtok" "N3w!Pass" 0).2 = .ok () →
      (resetPassword resetUser0 "rawtok" "N3w!Pass" 0).1.passwordResetToken = none ∧
      (resetPassword resetUser0 "rawtok" "N3w!Pass" 0).1.passwordResetExpires = none ∧
      (resetPassword resetUser0 "rawtok" "N3w!Pass" 0).1.password = bcryptHash "N3w!Pass" ∧
      (resetPassword resetUser0 "rawtok" "N3w!Pass" 0).1.refreshTokens = [] ∧
      ∀ now2 newPw2,
        (resetPassword (resetPassword resetUser0 "rawtok" "N3w!Pass" 0).1 "rawtok" newPw2 now2).2
          = .error ⟨400, "Invalid or expired password reset token"⟩) ∧
    ((resetPassword resetUser0 "rawtok" "N3w!Pass" 0).2 ≠ .ok () →
      (resetPassword resetUser0 "rawtok" "N3w!Pass" 0).1 = resetUser0) :=
  reset_password_single_use resetUser0 "rawtok" "N3w!Pass" 0 (by decide)

/-- C5: for a schema-valid new password, change-password succeeds exactly when
the current password verifies against the stored digest; on success the
re-hashed new password is stored and the session list is cleared entirely, so
any refresh presented afterwards against this account fails (it is rejected
with a 403 whether token verification fails or the session-list membership
check fails — and the deployed handler, see the C1 theorem, fails with 500
even earlier). -/
theorem change_password_clears_sessions (u : User) (cur newPw : String)
    (hval : passwordSchemaOk newPw = true) :
    (((changePassword u cur newPw).2 = .ok ()) ↔ bcryptCompare cur u.password = true) ∧
    ((changePassword u cur newPw).2 = .ok () →
      (changePassword u cur newPw).1.password = bcryptHash newPw ∧
      (changePassword u cur newPw).1.refreshTokens = [] ∧
      (∀ t, ((changePassword u cur newPw).1.refreshTokens.any (fun r => r.token = t)) = false) ∧
      ∀ t cfg now2 userAgent ipAddress,
        ∃ e : ApiErr, e.statusCode = 403 ∧
          refreshRotate (fun _ => some (changePassword u cur newPw).1) t cfg now2
            userAgent ipAddress = .error e) ∧
    ((changePassword u cur newPw).2 ≠ .ok () → (changePassword u cur newPw).1 = u) := by
  by_cases hc : bcryptCompare cur u.password = true
  · have hpost : changePassword u cur newPw
        = (removeAllRefreshTokens { u with password := bcryptHash newPw }, .ok ()) := by
      unfold changePassword
      rw [if_neg (by simp [hc]), if_neg (by simp [hval])]
    refine ⟨by simp [hpost, hc], ?_, ?_⟩
    · intro _
      refine ⟨by simp [hpost, removeAllRefreshTokens],
              by simp [hpost, removeAllRefreshTokens],
              by simp [hpost, removeAllRefreshTokens], ?_⟩
      intro t cfg now2 userAgent ipAddress
      rw [hpost]
      cases hv : jwtVerify t cfg.refreshSecret now2 with
      | error e =>
          exact ⟨⟨403, "Invalid or expired refresh token"⟩, rfl, by
            unfold refreshRotate
            rw [hv]⟩
      | ok d =>
          exact ⟨⟨403, "Invalid refresh token"⟩, rfl, by
            unfold refreshRotate
            rw [hv]
            simp [removeAllRefreshTokens]⟩
    · intro hne
      exfalso
      exact hne (by simp [hpost])
  · have hc' : bcryptCompare cur u.password = false := by
      cases h : bcryptCompare cur u.password
      · rfl
      · exact absurd h hc
    have hpost : changePassword u cur newPw
        = (u, .error ⟨400, "Current password is incorrect"⟩) := by
      unfold changePassword
      rw [if_pos (by simp [hc'])]
    refine ⟨by simp [hpost, hc'], by simp [hpost], ?_⟩
    intro _
    simp [hpost]

/-- Witness for change_password_clears_sessions at an account holding one live
session: the change succeeds with the correct current password and empties the
session list. -/
theorem change_password_clears_sessions_witness :
    (((changePassword sessUser0 "Str0ng!Pw" "N3w!Pass").2 = .ok ())
      ↔ bcryptCompare "Str0ng!Pw" sessUser0.password = true) ∧
    ((changePassword sessUser0 "Str0ng!Pw" "N3w!Pass").2 = .ok () →
      (changePassword sessUser0 "Str0ng!Pw" "N3w!Pass").1.password = bcryptHash "N3w!Pass" ∧
      (changePassword sessUser0 "Str0ng!Pw" "N3w!Pass").1.refreshTokens = [] ∧
      (∀ t, ((changePassword sessUser0 "Str0ng!Pw" "N3w!Pass").1.refreshTokens.any
        (fun r => r.token = t)) = false) ∧
      ∀ t cfg now2 userAgent ipAddress,
        ∃ e : ApiErr, e.statusCode = 403 ∧
          refreshRotate (fun _ => some (changePassword sessUser0 "Str0ng!Pw" "N3w!Pass").1)
            t cfg now2 userAgent ipAddress = .error e) ∧
    ((changePassword sessUser0 "Str0ng!Pw" "N3w!Pass").2 ≠ .ok () →
      (changePassword sessUser0 "Str0ng!Pw" "N3w!Pass").1 = sessUser0) :=
  change_password_clears_sessions sessUser0 "Str0ng!Pw" "N3w!Pass" (by decide)

/-- C3 counterexample: a concrete successful registration returns 201 but
records zero sessions (not one) and issues no tokens, since registerUser never
calls generateTokens or addRefreshToken. -/
theorem register_creates_no_session_counterexample :
    (registerUser false 1 registerReq0 "vt" 0).toOption.map
        (fun p => p.1.refreshTokens.length) = some 0 ∧
    (registerUser false 1 registerReq0 "vt" 0).toOption.map
        (fun p => p.2.statusCode) = some 201 := by
  constructor
  · rfl
  · rfl

/-- C3 amended: every successful registration creates the account
email-unverified with an empty session list and a zeroed lockout counter, and
responds 201 with the six-field account summary, whose serialized keys exclude
the password digest, the session array and the stored token hashes; no access
or refresh token is issued by registration. -/
theorem register_amended (emailTaken : Bool) (newId : Nat) (req : RegisterReq)
    (vt : String) (now : Nat) (u : User) (resp : ApiResp UserSummary)
    (h : registerUser emailTaken newId req vt now = .ok (u, resp)) :
    u.isEmailVerified = false ∧ u.refreshTokens = [] ∧ u.loginAttempts = 0 ∧
    u.lockUntil = none ∧
    resp.statusCode = 201 ∧ resp.data = some (summarize u) ∧
    "password" ∉ registerSummaryKeys ∧ "refreshTokens" ∉ registerSummaryKeys ∧
    "emailVerificationToken" ∉ registerSummaryKeys ∧
    "passwordResetToken" ∉ registerSummaryKeys := by
  unfold registerUser at h
  split at h
  · exact Except.noConfusion h
  · split at h
    · exact Except.noConfusion h
    · rename_i v heq
      injection h with h'
      injection h' with hu hr
      subst hu
      subst hr
      unfold createUser at heq
      split at heq
      · exact Except.noConfusion heq
      · injection heq with hv
        subst hv
        refine ⟨rfl, rfl, rfl, rfl, rfl, rfl, by decide, by decide, by decide, by decide⟩

/-- Witness for register_amended at the concrete registration of registerReq0. -/
theorem register_amended_witness :
    regUser0.isEmailVerified = false ∧ regUser0.refreshTokens = [] ∧
    regUser0.loginAttempts = 0 ∧ regUser0.lockUntil = none ∧
    regResp0.statusCode = 201 ∧ regResp0.data = some (summarize regUser0) ∧
    "password" ∉ registerSummaryKeys ∧ "refreshTokens" ∉ registerSummaryKeys ∧
    "emailVerificationToken" ∉ registerSummaryKeys ∧
    "passwordResetToken" ∉ registerSummaryKeys :=
  register_amended false 1 registerReq0 "vt" 0 regUser0 regResp0 (by rfl)

/-- C6 counterexample: a registration request that supplies role admin passes
the role enum validation and creates an administrator account — registerUser
forwards req.body.role (role || user) into User.create, and the validation
layer explicitly allows user, admin and moderator. -/
theorem register_role_passthrough_counterexample :
    (registerUser false 2 adminRegisterReq0 "vt" 0).toOption.map
        (fun p => p.1.role) = some "admin" := by
  rfl

/-- C6 amended: a successful registration stores jsRoleDefault req.role — the
schema default of user applies only when the request omits the role field (or
sends a falsy empty string); a supplied admin or moderator role is accepted
and stored, constrained only by the role enum. -/
theorem register_role_amended (emailTaken : Bool) (newId : Nat) (req : RegisterReq)
    (vt : String) (now : Nat) (u : User) (resp : ApiResp UserSummary)
    (h : registerUser emailTaken newId req vt now = .ok (u, resp)) :
    u.role = jsRoleDefault req.role ∧
    (req.role = none → u.role = "user") ∧
    (req.role = some "" → u.role = "user") ∧
    roleSchemaOk u.role = true := by
  unfold registerUser at h
  split at h
  · exact Except.noConfusion h
  · split at h
    · exact Except.noConfusion h
    · rename_i v heq
      injection h with h'
      injection h' with hu hr
      subst hu
      subst hr
      unfold createUser at heq
      split at heq
      · exact Except.noConfusion heq
      · rename_i hok
        injection heq with hv
        subst hv
        have hrole : roleSchemaOk (jsRoleDefault req.role) = true := by
          simp [Bool.and_eq_true] at hok
          exact hok.2.2.2
        refine ⟨rfl, ?_, ?_, hrole⟩
        · intro hnone
          simp [jsRoleDefault, hnone]
        · intro hempty
          simp [jsRoleDefault, hempty]

/-- Witness for register_role_amended at the concrete admin registration. -/
theorem register_role_amended_witness :
    regAdmin0.role = jsRoleDefault adminRegisterReq0.role ∧
    (adminRegisterReq0.role = none → regAdmin0.role = "user") ∧
    (adminRegisterReq0.role = some "" → regAdmin0.role = "user") ∧
    roleSchemaOk regAdmin0.role = true :=
  register_role_amended false 2 adminRegisterReq0 "vt" 0 regAdmin0
    ⟨201, some (summarize regAdmin0),
     "User registered successfully. Please check your email to verify your account."⟩
    (by rfl)

/-- C7 counterexample: a token carrying a foreign issuer and audience but a
valid signature and expiry is accepted end to end by the authenticate
middleware — jwt.verify is called without issuer/audience options, so neither
claim is checked. -/
theorem authenticate_ignores_issuer_counterexample :
    evilToken.iss ≠ cfg0.issuer ∧ evilToken.aud ≠ cfg0.audience ∧
    authenticate db0 (some evilToken) cfg0 0 = .ok user0 := by
  exact ⟨by decide, by decide, rfl⟩

/-- C7 amended: verification of a signed session token checks the signature
and the expiry only — a token verifies exactly when it was signed with the
expected secret and is not yet expired, regardless of its issuer and audience.
On the access path the two failures are classified into the distinct 401
Invalid token and 401 Token has expired errors; the refresh path as written
collapses both classes into one combined 403 invalid-or-expired error, and the
deployed refresh handler in fact fails 500 before verification because the
module never imports jwt. -/
theorem token_verification_amended (t : Jwt) (secret : String) (now : Nat)
    (db : Nat → Option User) (cfg : AuthConfig) (userAgent ipAddress : String) :
    (jwtVerify t secret now = .ok t ↔ (t.sig = secret ∧ now < t.exp)) ∧
    (t.sig ≠ secret → jwtVerify t secret now = .error .invalid) ∧
    (t.sig = secret → t.exp ≤ now → jwtVerify t secret now = .error .expired) ∧
    (jwtVerify t cfg.accessSecret now = .error .invalid →
      authenticate db (some t) cfg now = .error ⟨401, "Invalid token"⟩) ∧
    (jwtVerify t cfg.accessSecret now = .error .expired →
      authenticate db (some t) cfg now = .error ⟨401, "Token has expired"⟩) ∧
    (∀ e, jwtVerify t cfg.refreshSecret now = .error e →
      refreshRotate db t cfg now userAgent ipAddress
        = .error ⟨403, "Invalid or expired refresh token"⟩) ∧
    refreshTokenHandler db (some t) cfg now userAgent ipAddress
      = .error ⟨500, "Internal server error"⟩ := by
  refine ⟨?_, ?_, ?_, ?_, ?_, ?_, rfl⟩
  · unfold jwtVerify
    split
    · rename_i hs
      simp
      intro h
      exact absurd h hs
    · rename_i hs
      split
      · rename_i he
        simp
        intro h
        omega
      · rename_i he
        simp
        constructor
        · simpa using hs
        · omega
  · intro hs
    unfold jwtVerify
    rw [if_pos hs]
  · intro hs he
    unfold jwtVerify
    rw [if_neg (by simp [hs]), if_pos he]
  · intro hv
    unfold authenticate
    simp only [hv]
  · intro hv
    unfold authenticate
    simp only [hv]
  · intro e hv
    unfold refreshRotate
    simp only [hv]

/-- Witness for token_verification_amended: the foreign-issuer token verifies,
the forged-signature token is classified invalid, and the expired token is
classified expired by the authenticate middleware. -/
theorem token_verification_amended_witness :
    jwtVerify evilToken "access-secret" 0 = .ok evilToken ∧
    jwtVerify badSigToken "access-secret" 0 = .error .invalid ∧
    authenticate db0 (some expiredToken) cfg0 10 = .error ⟨401, "Token has expired"⟩ := by
  refine ⟨?_, ?_, ?_⟩
  · exact (token_verification_amended evilToken "access-secret" 0 db0 cfg0 "" "").1.mpr
      (by decide)
  · exact (token_verification_amended badSigToken "access-secret" 0 db0 cfg0 "" "").2.1
      (by decide)
  · exact (token_verification_amended expiredToken cfg0.accessSecret 10 db0 cfg0 "" "").2.2.2.2.1
      (by rfl)

/-- C8 counterexample: the two forgot-password responses share the status code
(200) and shape (null data, success), but carry different message strings —
If an account with that email exists... versus Password reset email sent
successfully. — so the response body does distinguish whether the account
exists. -/
theorem forgot_password_message_leak_counterexample :
    (forgotPassword none "rt" 0 true).2.toOption.map (fun r => r.statusCode)
      = (forgotPassword (some user0) "rt" 0 true).2.toOption.map (fun r => r.statusCode) ∧
    (forgotPassword none "rt" 0 true).2.toOption.map (fun r => r.message)
      ≠ (forgotPassword (some user0) "rt" 0 true).2.toOption.map (fun r => r.message) := by
  exact ⟨rfl, by decide⟩

/-- C8 amended: with email delivery succeeding, the unknown-email and
known-email cases both respond 200 with null data (same status code and
success shape) though with different message texts, and a reset token hash
with a 1-hour expiry is stored only in the known-account case — the
unknown-email case stores nothing. -/
theorem forgot_password_amended (u : User) (raw : String) (now : Nat) :
    (forgotPassword none raw now true).2
      = .ok ⟨200, none,
          "If an account with that email exists, we have sent a password reset link."⟩ ∧
    (forgotPassword (some u) raw now true).2
      = .ok ⟨200, none, "Password reset email sent successfully."⟩ ∧
    (forgotPassword none raw now true).1 = none ∧
    (forgotPassword (some u) raw now true).1
      = some { u with passwordResetToken := some (hashToken raw),
                      passwordResetExpires := some (now + 60 * 60 * 1000) } := by
  exact ⟨rfl, rfl, rfl, rfl⟩

/-- Shared helper: when the request supplies no explicit isEmailVerified and
the built update touches the email, the email branch has written
isEmailVerified := false into the update. -/
theorem buildAdminUpdateData_email_resets (u : User) (req : AdminUpdateReq)
    (hnone : req.isEmailVerified = none)
    (hmail : (buildAdminUpdateData u req).email ≠ none) :
    (buildAdminUpdateData u req).isEmailVerified = some false := by
  obtain ⟨n, e, r, a, v⟩ := req
  simp only at hnone
  subst hnone
  unfold buildAdminUpdateData at hmail ⊢
  cases n <;> cases e <;> cases r <;> cases a <;>
    simp_all <;> split_ifs at hmail ⊢ <;> simp_all

/-- C10 counterexample: an admin update that changes the email and explicitly
supplies isEmailVerified = true in the same request leaves the changed email
marked verified — the explicit field is copied into updateData after the email
branch wrote false, and findByIdAndUpdate bypasses the pre-save hook. -/
theorem admin_update_keeps_verified_counterexample :
    verifiedUser0.email ≠ "b@x.com" ∧
    (updateUserProfile verifiedUser0 overrideReq0 false false).toOption.map
        (fun v => (v.email, v.isEmailVerified)) = some ("b@x.com", true) := by
  exact ⟨by decide, rfl⟩

/-- C10 amended: the pre-save hook does reset isEmailVerified on any saved
email change of an existing document; the admin update path resets it when it
changes the email only if the request does not also supply isEmailVerified
explicitly — an explicit isEmailVerified always wins, so that path can leave a
changed email marked verified. -/
theorem email_change_unverified_amended (p u v : User) (req : AdminUpdateReq)
    (isSelf emailTakenElsewhere : Bool) :
    (u.email ≠ p.email → (applyPreSaveHooks (some p) u).isEmailVerified = false) ∧
    (updateUserProfile u req isSelf emailTakenElsewhere = .ok v →
      (req.isEmailVerified = none → (buildAdminUpdateData u req).email ≠ none →
        v.isEmailVerified = false) ∧
      ∀ b, req.isEmailVerified = some b → v.isEmailVerified = b) := by
  constructor
  · intro hne
    simp [applyPreSaveHooks, hne]
  · intro h
    have hv : v = applyUpdateData u (buildAdminUpdateData u req) := by
      unfold updateUserProfile at h
      split at h
      · exact Except.noConfusion h
      · split at h
        · exact Except.noConfusion h
        · split at h
          · exact Except.noConfusion h
          · injection h with h'
            exact h'.symm
    constructor
    · intro hnone hmail
      have hset := buildAdminUpdateData_email_resets u req hnone hmail
      rw [hv]
      exact applyUpdateData_isEmailVerified_override u _ false hset
    · intro b hb
      have hset : (buildAdminUpdateData u req).isEmailVerified = some b := by
        unfold buildAdminUpdateData
        rw [hb]
      rw [hv]
      exact applyUpdateData_isEmailVerified_override u _ b hset

/-- Witness for email_change_unverified_amended: saving an email change resets
the flag, and the admin path without an explicit isEmailVerified also resets
it. -/
theorem email_change_unverified_amended_witness :
    (applyPreSaveHooks (some user0)
        { verifiedUser0 with email := "b@x.com" }).isEmailVerified = false ∧
    ({ verifiedUser0 with email := "b@x.com", isEmailVerified := false } : User).isEmailVerified
      = false := by
  constructor
  · exact (email_change_unverified_amended user0
      { verifiedUser0 with email := "b@x.com" }
      { verifiedUser0 with email := "b@x.com", isEmailVerified := false }
      plainEmailReq0 false false).1 (by decide)
  · exact ((email_change_unverified_amended verifiedUser0 verifiedUser0
      { verifiedUser0 with email := "b@x.com", isEmailVerified := false }
      plainEmailReq0 false false).2 (by rfl)).1 (by rfl) (by decide)
